import Mathlib

/-!
Verification of the pricing-table component of the repository
(`src/components/pricing/search/pricing-table.tsx`).

The component `PricingTable` is a React function of no props that returns a
fixed JSX tree: a grid `<div>` holding three plan cards (Free, Pay as you go,
Pro).  Each card follows the same template — a wrapper `<div>` with a class
string, an `<h4>` title, an `<h5>` price with a unit line, a description
banner, one block per limit row (label + value), and a `Button asChild`
wrapping an `<a target="_self" href=...>` with a text label.

We embed the rendered output as plain Lean data: `RenderedCard` captures the
card-level structure the claims talk about (wrapper class, title, price,
unit, description, limit rows in order, and the action anchor's properties).
Per-element styling classes that are identical across cards and irrelevant
to every claim (e.g. the inner `py-3` rows) are not modelled; the wrapper
class is kept verbatim because the highlighted card differs there
(`border-2 border-primary`).

The spec's data model (`PlanDescriptor`) is inlined in the TSX: each card's
strings appear literally in the markup.  We transcribe the grid literally as
`PricingTable`, extract the per-tier data into `catalog`, express the shared
template as `renderCard`, and prove `PricingTable = renderGrid catalog`, so
that properties quantified over descriptors are grounded in the literal
transcription.
-/

/-- A call-to-action of a plan: the control's label, its destination, and
whether the tier is available.  The TSX encodes `enabled` implicitly: the
one intentionally disabled tier (Pro) carries the placeholder destination
`"#"` and the label `"Coming Soon"`, while both enabled tiers link to the
live console URL. -/
structure CallToAction where
  label : String
  href : String
  enabled : Bool
  deriving DecidableEq

/-- One plan tier, as described by the spec's data model and inlined
literally in the TSX markup. -/
structure PlanDescriptor where
  name : String
  priceLabel : String
  priceUnit : String
  description : String
  limits : List (String × String)
  callToAction : CallToAction
  highlighted : Bool
  deriving DecidableEq

/-- The action control rendered at the bottom of a card:
`<Button asChild variant="primary"><a target="_self" href=...>label</a></Button>`. -/
structure RenderedAction where
  variant : String
  target : String
  href : String
  label : String
  deriving DecidableEq

/-- The observable structure of one rendered plan card. -/
structure RenderedCard where
  className : String
  title : String
  priceLabel : String
  priceUnit : String
  description : String
  limitRows : List (String × String)
  action : RenderedAction
  deriving DecidableEq

/-- Wrapper class of the two non-highlighted cards, verbatim from the TSX. -/
def cardClassBase : String :=
  "flex flex-col items-center gap-4 rounded-4xl bg-white p-6 shadow sm:gap-6 sm:p-8 dark:border-bg-mute dark:bg-bg-mute"

/-- Wrapper class of the highlighted (Pay as you go) card, verbatim from the
TSX: the same class list with `border-2 border-primary` added. -/
def cardClassHighlighted : String :=
  "flex flex-col items-center gap-4 rounded-4xl border-2 border-primary bg-white p-6 shadow sm:gap-6 sm:p-8 dark:border-bg-mute dark:bg-bg-mute"

/-- The card template shared by the three cards of the TSX: every field of
the rendered card is copied from the descriptor; the wrapper class carries
the primary border exactly for the highlighted tier; the action is always a
`variant="primary"` button wrapping an `<a target="_self">` whose href and
label come from the call-to-action. -/
def renderCard (p : PlanDescriptor) : RenderedCard :=
  { className := if p.highlighted then cardClassHighlighted else cardClassBase,
    title := p.name,
    priceLabel := p.priceLabel,
    priceUnit := p.priceUnit,
    description := p.description,
    limitRows := p.limits,
    action := { variant := "primary", target := "_self",
                href := p.callToAction.href, label := p.callToAction.label } }

/-- The grid composer: one card per descriptor, in catalog order. -/
def renderGrid (cat : List PlanDescriptor) : List RenderedCard :=
  cat.map renderCard

/-- The Free tier, transcribed from the first card of the TSX. -/
def free : PlanDescriptor :=
  { name := "Free",
    priceLabel := "$0",
    priceUnit := "-",
    description := "Perfect for prototypes and hobby projects",
    limits := [("Monthly Query Limit", "20K"), ("Max Records", "200K")],
    callToAction := { label := "Start Now", href := "https://console.upstash.com", enabled := true },
    highlighted := false }

/-- The Pay as you go tier, transcribed from the second card of the TSX
(the one whose wrapper adds `border-2 border-primary`). -/
def payg : PlanDescriptor :=
  { name := "Pay as you go",
    priceLabel := "$0.05",
    priceUnit := "per 1K requests",
    description := "For use cases with bursting traffic",
    limits := [("Monthly Query Limit", "Unlimited"), ("Max Records", "Unlimited")],
    callToAction := { label := "Start Now", href := "https://console.upstash.com", enabled := true },
    highlighted := true }

/-- The Pro tier, transcribed from the third card of the TSX: price text
"Coming Soon", and a call-to-action with the placeholder href `"#"` and
label "Coming Soon" — the intentionally disabled tier (`enabled := false`
per the spec's data model; the TSX conveys it by the placeholder target). -/
def pro : PlanDescriptor :=
  { name := "Pro",
    priceLabel := "Coming Soon",
    priceUnit := "-",
    description := "For consistent loads with predictable costs",
    limits := [("Monthly Query Limit", "Unlimited"), ("Max Records", "Unlimited")],
    callToAction := { label := "Coming Soon", href := "#", enabled := false },
    highlighted := false }

/-- The plan catalog, in the left-to-right order of the TSX markup. -/
def catalog : List PlanDescriptor := [free, payg, pro]

/-- The grid returned by `PricingTable()`, transcribed card by card from the
JSX tree (wrapper class, title, price, unit, banner text, limit rows in
markup order, and the action anchor). -/
def PricingTable : List RenderedCard :=
  [{ className := "flex flex-col items-center gap-4 rounded-4xl bg-white p-6 shadow sm:gap-6 sm:p-8 dark:border-bg-mute dark:bg-bg-mute",
     title := "Free",
     priceLabel := "$0",
     priceUnit := "-",
     description := "Perfect for prototypes and hobby projects",
     limitRows := [("Monthly Query Limit", "20K"), ("Max Records", "200K")],
     action := { variant := "primary", target := "_self",
                 href := "https://console.upstash.com", label := "Start Now" } },
   { className := "flex flex-col items-center gap-4 rounded-4xl border-2 border-primary bg-white p-6 shadow sm:gap-6 sm:p-8 dark:border-bg-mute dark:bg-bg-mute",
     title := "Pay as you go",
     priceLabel := "$0.05",
     priceUnit := "per 1K requests",
     description := "For use cases with bursting traffic",
     limitRows := [("Monthly Query Limit", "Unlimited"), ("Max Records", "Unlimited")],
     action := { variant := "primary", target := "_self",
                 href := "https://console.upstash.com", label := "Start Now" } },
   { className := "flex flex-col items-center gap-4 rounded-4xl bg-white p-6 shadow sm:gap-6 sm:p-8 dark:border-bg-mute dark:bg-bg-mute",
     title := "Pro",
     priceLabel := "Coming Soon",
     priceUnit := "-",
     description := "For consistent loads with predictable costs",
     limitRows := [("Monthly Query Limit", "Unlimited"), ("Max Records", "Unlimited")],
     action := { variant := "primary", target := "_self",
                 href := "#", label := "Coming Soon" } }]

/-- Modelled from the spec: activation semantics of the action control.  The
`Button` primitive (`@/components/button`, not present under `src/`) renders
its anchor child as the control; activating an anchor navigates to its
`href`, except that the placeholder `"#"` is a non-functional target — per
the spec, "the target is a non-functional placeholder, never a live
destination" — so activating it yields no navigation. -/
def activateAction (a : RenderedAction) : Option String :=
  if a.href = "#" then none else some a.href

/-- Modelled from the spec: a control is interactive (functional, leading
somewhere) exactly when activating it navigates to a live destination. -/
def actionInteractive (a : RenderedAction) : Bool :=
  (activateAction a).isSome

theorem pricingTable_factors : PricingTable = renderGrid catalog := by
  decide

/-- C1: for every plan descriptor in the catalog, the rendered card's action
control is interactive iff the descriptor's `callToAction.enabled` is true;
the disabled tier's control targets the non-functional placeholder `"#"`
and activating it is a no-op (no navigation). -/
theorem interactive_iff_enabled (p : PlanDescriptor) (hp : p ∈ catalog) :
    actionInteractive (renderCard p).action = p.callToAction.enabled ∧
    (p.callToAction.enabled = false →
      (renderCard p).action.href = "#" ∧
      activateAction (renderCard p).action = none) := by
  simp only [catalog, List.mem_cons, List.not_mem_nil, or_false] at hp
  rcases hp with rfl | rfl | rfl <;> constructor <;> decide

/-- Witness for C1 at the disabled Pro tier. -/
theorem interactive_iff_enabled_witness :
    pro ∈ catalog ∧
    (actionInteractive (renderCard pro).action = pro.callToAction.enabled ∧
     (pro.callToAction.enabled = false →
       (renderCard pro).action.href = "#" ∧
       activateAction (renderCard pro).action = none)) :=
  ⟨by decide, interactive_iff_enabled pro (by decide)⟩

/-- C2: a descriptor with `callToAction.enabled = false` and href `"#"`
renders a non-interactive (disabled) control whose label equals
`callToAction.label`, and activating it produces no navigation. -/
theorem disabled_control (p : PlanDescriptor)
    (_h1 : p.callToAction.enabled = false) (h2 : p.callToAction.href = "#") :
    (renderCard p).action.label = p.callToAction.label ∧
    actionInteractive (renderCard p).action = false ∧
    activateAction (renderCard p).action = none := by
  refine ⟨rfl, ?_, ?_⟩ <;>
    simp [renderCard, actionInteractive, activateAction, h2]

/-- Witness for C2 at the Pro tier's call-to-action. -/
theorem disabled_control_witness :
    pro.callToAction.enabled = false ∧ pro.callToAction.href = "#" ∧
    ((renderCard pro).action.label = pro.callToAction.label ∧
     actionInteractive (renderCard pro).action = false ∧
     activateAction (renderCard pro).action = none) :=
  ⟨by decide, by decide, disabled_control pro (by decide) (by decide)⟩

/-- C3: for every descriptor the rendered limit rows are exactly the
descriptor's `limits` sequence — same length, same order, nothing inserted,
omitted, reordered, sorted, filtered or truncated; and concretely the
transcribed grid's limit rows are exactly the catalog's limits lists. -/
theorem limit_rows_preserved :
    (∀ p : PlanDescriptor, (renderCard p).limitRows = p.limits) ∧
    PricingTable.map RenderedCard.limitRows = catalog.map PlanDescriptor.limits :=
  ⟨fun _ => rfl, by decide⟩

/-- C4: the grid's card order equals the catalog's declared order — the grid
has one card per descriptor, the i-th card is rendered from the i-th
descriptor for every i (so no reordering, deduplication or pagination), and
this holds for catalogs of size 0, 1 and arbitrary N; the transcribed
`PricingTable` grid is exactly the composition over the catalog. -/
theorem grid_preserves_catalog_order :
    (∀ cat : List PlanDescriptor,
      (renderGrid cat).length = cat.length ∧
      ∀ i : Nat, (renderGrid cat)[i]? = Option.map renderCard cat[i]?) ∧
    renderGrid [] = [] ∧
    (∀ p : PlanDescriptor, renderGrid [p] = [renderCard p]) ∧
    PricingTable = renderGrid catalog := by
  refine ⟨fun cat => ⟨?_, fun i => ?_⟩, rfl, fun p => rfl, pricingTable_factors⟩
  · simp [renderGrid]
  · simp [renderGrid, List.getElem?_map]

/-- C5: an empty catalog renders an empty grid — zero cards, no error
(`renderGrid` is a total function). -/
theorem empty_catalog_empty_grid :
    renderGrid [] = ([] : List RenderedCard) ∧ (renderGrid []).length = 0 :=
  ⟨rfl, rfl⟩

/-- The concrete descriptor of the spec's scenario A. -/
def scenarioA : PlanDescriptor :=
  { name := "Free",
    priceLabel := "$0",
    priceUnit := "-",
    description := "",
    limits := [("Monthly Query Limit", "20K"), ("Max Records", "200K")],
    callToAction := { label := "Start Now", href := "https://console.example.com", enabled := true },
    highlighted := false }

/-- C6: scenario A renders a card titled "Free" with price "$0", exactly the
two limit rows in that order, and an interactive control labeled
"Start Now" targeting the given href. -/
theorem scenarioA_rendering :
    (renderCard scenarioA).title = "Free" ∧
    (renderCard scenarioA).priceLabel = "$0" ∧
    (renderCard scenarioA).limitRows
      = [("Monthly Query Limit", "20K"), ("Max Records", "200K")] ∧
    (renderCard scenarioA).action.label = "Start Now" ∧
    (renderCard scenarioA).action.href = "https://console.example.com" ∧
    actionInteractive (renderCard scenarioA).action = true := by
  refine ⟨rfl, rfl, rfl, rfl, rfl, ?_⟩
  decide

/-- C7: rendering is deterministic and stateless — the renderer takes no
state besides the catalog (the TSX component has no props, no hooks and no
module state), so rendering the same catalog twice yields structurally
identical output, and the card at any position depends only on the
descriptor at that position, not on the rest of the catalog or any other
state. -/
theorem render_deterministic (cat1 cat2 : List PlanDescriptor) (i : Nat)
    (h : cat1[i]? = cat2[i]?) :
    renderGrid cat1 = renderGrid cat1 ∧
    (renderGrid cat1)[i]? = (renderGrid cat2)[i]? := by
  refine ⟨rfl, ?_⟩
  simp [renderGrid, List.getElem?_map, h]

/-- Witness for C7: the card at position 0 is the same whether the catalog
is `[free]` or the full catalog, since the descriptor there is the same. -/
theorem render_deterministic_witness :
    ([free] : List PlanDescriptor)[0]? = catalog[0]? ∧
    (renderGrid [free] = renderGrid [free] ∧
     (renderGrid [free])[0]? = (renderGrid catalog)[0]?) :=
  ⟨by decide, render_deterministic [free] catalog 0 (by decide)⟩

/-- C8: exactly one card of the rendered grid carries the highlighted
wrapper class (the one with `border-2 border-primary`), and it is the card
titled "Pay as you go". -/
theorem unique_highlighted_card :
    (PricingTable.filter (fun c => c.className == cardClassHighlighted)).map
      RenderedCard.title = ["Pay as you go"] ∧
    PricingTable.countP (fun c => c.className == cardClassHighlighted) = 1 := by
  constructor <;> decide

/-- C9: the rendered cards are titled "Free", "Pay as you go" and "Pro" in
that left-to-right order; every title is non-empty and the titles are
pairwise distinct. -/
theorem card_titles :
    PricingTable.map RenderedCard.title = ["Free", "Pay as you go", "Pro"] ∧
    (PricingTable.map RenderedCard.title).all (fun s => !s.isEmpty) = true ∧
    (PricingTable.map RenderedCard.title).Nodup := by
  refine ⟨by decide, by decide, by decide⟩

/-- C10: every rendered card has exactly two limit rows, labeled
"Monthly Query Limit" then "Max Records", in that order. -/
theorem uniform_limit_labels :
    PricingTable.map (fun c => c.limitRows.map Prod.fst)
      = [["Monthly Query Limit", "Max Records"],
         ["Monthly Query Limit", "Max Records"],
         ["Monthly Query Limit", "Max Records"]] ∧
    PricingTable.all (fun c => c.limitRows.length == 2) = true := by
  constructor <;> decide
